import Mathlib

/-
Verification of the tenant-isolated vector store lifecycle of the
agereone backend (FastAPI + Qdrant + Supabase).

The Lean definitions below are a shallow embedding of the Python source:

  app/core/config.py          -- process settings (chunking defaults, model)
  app/services/vectorstore.py -- Qdrant collection, upsert, search, delete
  app/utils/embeddings.py     -- get_text_embedding
  app/utils/agent.py          -- ask_openai_agent
  app/services/supabase.py    -- relational helpers (users, profiles, keys)
  app/routes/profile/upload_file.py -- upload flow
  app/routes/profile/delete.py      -- delete flow
  app/routes/agent.py               -- chat endpoint

External services (the OpenAI embedding and completion providers, the
Qdrant similarity ranking, the langchain text splitter) are modelled as
explicit function parameters: the repository only calls them through a
remote API, so every theorem quantifies over their behaviour.  Remote
failures are modelled with Except; Python exceptions caught by a
try/except in the source become Except.error values handled at the
same place the source handles them.  Vector components and similarity
scores are modelled as Int (their numeric values never influence the
control flow being verified, only the ranking order, which is kept
fully abstract through the sim parameter).
-/

namespace Agere

/-- Python string truthiness: None and the empty string are falsy. -/
def strTruthy : Option String → Option String
  | none => none
  | some s => if s = "" then none else some s

/-- Python `a or b` for an optional string a and a string b. -/
def strOr (a : Option String) (b : String) : String :=
  (strTruthy a).getD b

/-- Python int truthiness: None and 0 are falsy. -/
def intTruthy : Option Int → Option Int
  | none => none
  | some n => if n = 0 then none else some n

/-- config.py: settings.DEFAULT_CHUNK_SIZE (pydantic default). -/
def DEFAULT_CHUNK_SIZE : Int := 400

/-- config.py: settings.DEFAULT_CHUNK_OVERLAP (pydantic default). -/
def DEFAULT_CHUNK_OVERLAP : Int := 20

/-- config.py: settings.EMBEDDING_MODEL (pydantic default). -/
def EMBEDDING_MODEL : String := "text-embedding-3-small"

/-- Python str.startswith, on the character sequences of the strings. -/
def strStartsWith (s pre : String) : Bool :=
  s.data.take pre.data.length == pre.data

/-- vectorstore.py: the payload stored with every Qdrant point by
store_profile_vectors (lines 161-168). -/
structure Payload where
  user_id : String
  text : String
  model : String
  chunk_size : Int
  chunk_overlap : Int
  plan : String
deriving Repr, DecidableEq

/-- qdrant PointStruct as built by store_profile_vectors: a fresh uuid id,
the embedding vector and the payload. -/
structure PointStruct where
  id : String
  vector : List Int
  payload : Payload
deriving Repr, DecidableEq

/-- State of the external Qdrant service: whether the service is
reachable, whether the career_profiles collection exists, and the
stored points. -/
structure QdrantState where
  available : Bool
  collection_exists : Bool
  points : List PointStruct
deriving Repr, DecidableEq

/-- vectorstore.py ensure_collection_exists (lines 30-43): lists the
collections and creates career_profiles (with the keyword payload index
on user_id) when absent.  Any network call raises when the service is
unreachable. -/
def ensure_collection_exists (s : QdrantState) : Except String QdrantState :=
  if s.available then
    .ok { s with collection_exists := true }
  else
    .error "qdrant unreachable"

/-- vectorstore.py get_valid_embedding_model (lines 45-50): fall back to
the literal text-embedding-3-small unless the candidate (argument, or
settings default when the argument is falsy) starts with the prefix
text-embedding. -/
def get_valid_embedding_model (model : Option String) : String :=
  let model_candidate := strOr model EMBEDDING_MODEL
  if model_candidate = "" || !strStartsWith model_candidate "text-embedding" then
    "text-embedding-3-small"
  else
    model_candidate

/-- Insert a scored point into a list sorted by descending score,
keeping earlier elements first on ties. -/
def insertDesc (x : PointStruct × Int) : List (PointStruct × Int) → List (PointStruct × Int)
  | [] => [x]
  | y :: ys => if y.2 < x.2 then x :: y :: ys else y :: insertDesc x ys

/-- Sort scored points by descending score (the ranking the external
Qdrant service applies before truncating to the requested limit). -/
def sortDesc : List (PointStruct × Int) → List (PointStruct × Int)
  | [] => []
  | x :: xs => insertDesc x (sortDesc xs)

/-- The external client.search call as issued by the source (vectorstore.py
lines 80-86 and 106-112): every search carries a Filter with an equality
FieldCondition on the payload field user_id, so the service ranks only the
points of that tenant, by similarity (sim) to the query vector, and returns
at most limit of them. -/
def qdrantSearch (sim : List Int → List Int → Int) (s : QdrantState)
    (query_vector : List Int) (filter_user_id : String) (limit : Nat) :
    Except String (List (PointStruct × Int)) :=
  if s.available then
    .ok ((sortDesc ((s.points.filter (fun p => p.payload.user_id == filter_user_id)).map
      (fun p => (p, sim query_vector p.vector)))).take limit)
  else
    .error "qdrant unreachable"

/-- The external client.upsert call: points whose id matches an incoming
point are overwritten, the rest are kept, and the incoming points are
stored. -/
def qdrantUpsert (s : QdrantState) (pts : List PointStruct) : Except String QdrantState :=
  if s.available then
    .ok { s with points :=
      (s.points.filter (fun p => !(pts.any (fun q => q.id == p.id)))) ++ pts }
  else
    .error "qdrant unreachable"

/-- The external client.delete call as issued by delete_user_vectors
(vectorstore.py lines 179-189): the points_selector is a Filter with an
equality FieldCondition on user_id, so exactly the points of that tenant
are removed. -/
def qdrantDeleteByUser (s : QdrantState) (user_id : String) : Except String QdrantState :=
  if s.available then
    .ok { s with points := s.points.filter (fun p => !(p.payload.user_id == user_id)) }
  else
    .error "qdrant unreachable"

/-- embeddings.py get_text_embedding (lines 9-21).  The whole body runs
under a try/except returning None on any failure.  embedSvc models the
OpenAI embedding provider (key, model, text to vector; none when the
provider call fails).  When openai_key is falsy the source evaluates
settings.OPENAI_API_KEY, which is not a field of the Settings class in
config.py, so an AttributeError is raised and caught: the result is None. -/
def get_text_embedding (embedSvc : String → String → String → Option (List Int))
    (text : String) (openai_key : Option String) (model : Option String) :
    Option (List Int) :=
  let emb_model := strOr model EMBEDDING_MODEL
  match strTruthy openai_key with
  | some k => embedSvc k emb_model text
  | none => none

/-- One retrieval hit as returned to callers of the query functions:
the payload text and the similarity score (vectorstore.py lines 88, 114). -/
structure Hit where
  text : String
  score : Int
deriving Repr, DecidableEq

/-- vectorstore.py query_profile_vectors (lines 90-114): ensure the
collection, embed the query text via get_text_embedding, return [] when
the embedding is falsy, otherwise run the user_id-filtered search with
limit top_k and project each hit to its payload text and score.
The search exception (service unreachable) is not caught here and
propagates to the caller. -/
def query_profile_vectors (embedSvc : String → String → String → Option (List Int))
    (sim : List Int → List Int → Int) (s : QdrantState)
    (user_id query_text openai_key : String) (model : Option String) (top_k : Nat) :
    Except String (List Hit) :=
  match ensure_collection_exists s with
  | .error e => .error e
  | .ok s1 =>
      match get_text_embedding embedSvc query_text (some openai_key) model with
      | none => .ok []
      | some query_vector =>
          match qdrantSearch sim s1 query_vector user_id top_k with
          | .error e => .error e
          | .ok results =>
              .ok (results.map (fun r => { text := r.1.payload.text, score := r.2 }))

/-- vectorstore.py qdrant_query (lines 66-88): like query_profile_vectors
but the model is validated, the embedding call (embed_query) raises on
failure instead of returning None, and the limit is the constant 15.
embedQ models the raw OpenAIEmbeddings.embed_query provider call. -/
def qdrant_query (embedQ : String → String → String → Except String (List Int))
    (sim : List Int → List Int → Int) (s : QdrantState)
    (user_id query openai_key : String) (model : Option String) :
    Except String (List Hit) :=
  match ensure_collection_exists s with
  | .error e => .error e
  | .ok s1 =>
      match embedQ openai_key (get_valid_embedding_model model) query with
      | .error e => .error e
      | .ok query_vector =>
          match qdrantSearch sim s1 query_vector user_id 15 with
          | .error e => .error e
          | .ok results =>
              .ok (results.map (fun r => { text := r.1.payload.text, score := r.2 }))

/-- vectorstore.py store_profile_vectors line 132: use_custom_chunks,
whether the plan may override the default chunking. -/
def isCustomPlan (user_plan : String) : Bool :=
  user_plan == "paid" || user_plan == "premium" || user_plan == "pro"

/-- vectorstore.py store_profile_vectors lines 132-141: plan-gated choice
of the chunking parameters actually used.  Custom plans keep a truthy
caller value when chunk_size is at least 100 resp. chunk_overlap is at
least 0; every other plan uses the configured defaults. -/
def selectChunkParams (user_plan : String) (chunk_size chunk_overlap : Option Int) :
    Int × Int :=
  if isCustomPlan user_plan then
    (match intTruthy chunk_size with
      | some n => if 100 ≤ n then n else DEFAULT_CHUNK_SIZE
      | none => DEFAULT_CHUNK_SIZE,
     match intTruthy chunk_overlap with
      | some n => if 0 ≤ n then n else DEFAULT_CHUNK_OVERLAP
      | none => DEFAULT_CHUNK_OVERLAP)
  else
    (DEFAULT_CHUNK_SIZE, DEFAULT_CHUNK_OVERLAP)

/-- The embedding loop of store_profile_vectors (lines 154-170): embed
each chunk with embed_query (which raises on provider failure) and build
a PointStruct with a fresh uuid4 id (modelled by uuidGen applied to the
chunk position) and the payload of the source. -/
def embedChunks (embedQ : String → String → String → Except String (List Int))
    (uuidGen : Nat → String) (openai_key m user_id : String)
    (csize cov : Int) (user_plan : String) :
    Nat → List String → Except String (List PointStruct)
  | _, [] => .ok []
  | i, c :: rest =>
      match embedQ openai_key m c with
      | .error e => .error e
      | .ok v =>
          match embedChunks embedQ uuidGen openai_key m user_id csize cov user_plan (i + 1) rest with
          | .error e => .error e
          | .ok ds =>
              .ok ({ id := uuidGen i, vector := v,
                     payload := { user_id := user_id, text := c, model := m,
                                  chunk_size := csize, chunk_overlap := cov,
                                  plan := user_plan } } :: ds)

/-- vectorstore.py store_profile_vectors (lines 116-174): choose the chunk
parameters by plan, validate the model, ensure the collection, split the
text (split models the langchain RecursiveCharacterTextSplitter, an
external library, parametrised by size and overlap), embed every chunk,
upsert the resulting points and return their number. -/
def store_profile_vectors (split : Int → Int → String → List String)
    (embedQ : String → String → String → Except String (List Int))
    (uuidGen : Nat → String) (s : QdrantState)
    (user_id text openai_key : String) (model : Option String)
    (chunk_size chunk_overlap : Option Int) (user_plan : String) :
    Except String (QdrantState × Nat) :=
  let sizes := selectChunkParams user_plan chunk_size chunk_overlap
  let m := get_valid_embedding_model model
  match ensure_collection_exists s with
  | .error e => .error e
  | .ok s1 =>
      let chunks := split sizes.1 sizes.2 text
      match embedChunks embedQ uuidGen openai_key m user_id sizes.1 sizes.2 user_plan 0 chunks with
      | .error e => .error e
      | .ok embedded_docs =>
          match qdrantUpsert s1 embedded_docs with
          | .error e => .error e
          | .ok s2 => .ok (s2, embedded_docs.length)

/-- vectorstore.py delete_user_vectors (lines 176-190): ensure the
collection, then delete with the user_id equality filter. -/
def delete_user_vectors (s : QdrantState) (user_id : String) : Except String QdrantState :=
  match ensure_collection_exists s with
  | .error e => .error e
  | .ok s1 => qdrantDeleteByUser s1 user_id

/-- A row of the Supabase users table (the columns the modelled flows read). -/
structure UserRow where
  id : String
  username : String
deriving Repr, DecidableEq

/-- A row of the Supabase profiles table as written by
insert_user_profile_metadata (supabase.py lines 104-114). -/
structure ProfileRow where
  user_id : String
  original_filename : String
  embedding_model : Option String
  vector_count : Int
  is_active : Bool
  is_published : Bool
  chunk_size : Int
  chunk_overlap : Int
deriving Repr, DecidableEq

/-- A row of the Supabase openai_keys table. -/
structure KeyRow where
  user_id : String
  api_key : String
  model : Option String
deriving Repr, DecidableEq

/-- The relational store consumed through supabase.py. -/
structure Db where
  users : List UserRow
  profiles : List ProfileRow
  openai_keys : List KeyRow
deriving Repr, DecidableEq

/-- PostgREST .single() as used by the supabase.py helpers: it raises
unless the selection holds exactly one row, and every helper catches
that exception and returns None. -/
def singleRow {α : Type} : List α → Option α
  | [a] => some a
  | _ => none

/-- supabase.py get_user_profile_by_username (lines 132-154): resolve the
user id from the display name, then return the single active and
published profile row of that user, or None. -/
def get_user_profile_by_username (db : Db) (username : String) : Option ProfileRow :=
  match singleRow (db.users.filter (fun u => u.username == username)) with
  | none => none
  | some u =>
      singleRow (db.profiles.filter
        (fun p => p.user_id == u.id && p.is_active && p.is_published))

/-- supabase.py get_openai_key_and_model_for_user (lines 160-172): the
single openai_keys row of the user, as an (api_key, model) pair, or
(None, None). -/
def get_openai_key_and_model_for_user (db : Db) (user_id : String) :
    Option String × Option String :=
  match singleRow (db.openai_keys.filter (fun k => k.user_id == user_id)) with
  | some row => (some row.api_key, row.model)
  | none => (none, none)

/-- supabase.py soft_delete_active_profile (lines 72-79): flag every
active profile row of the user inactive and return the number of rows
updated (the count the source documents itself to return). -/
def soft_delete_active_profile (db : Db) (user_id : String) : Db × Nat :=
  ({ db with profiles := db.profiles.map (fun p =>
      if p.user_id == user_id && p.is_active then { p with is_active := false } else p) },
   (db.profiles.filter (fun p => p.user_id == user_id && p.is_active)).length)

/-- supabase.py deactivate_user_profiles (lines 81-90): the same update,
with errors swallowed and no count returned. -/
def deactivate_user_profiles (db : Db) (user_id : String) : Db :=
  { db with profiles := db.profiles.map (fun p =>
      if p.user_id == user_id && p.is_active then { p with is_active := false } else p) }

/-- supabase.py insert_user_profile_metadata (lines 92-117): append the
new active, unpublished profile metadata row. -/
def insert_user_profile_metadata (db : Db) (user_id file_name : String)
    (vector_count : Int) (model : Option String) (chunk_size chunk_overlap : Int) : Db :=
  { db with profiles := db.profiles ++
      [{ user_id := user_id, original_filename := file_name,
         embedding_model := model, vector_count := vector_count,
         is_active := true, is_published := false,
         chunk_size := chunk_size, chunk_overlap := chunk_overlap }] }

/-- An HTTP error response: status code and detail string. -/
abbrev HttpError := Nat × String

/-- upload_file.py line 83: the chunk size forwarded by the route
(settings.DEFAULT_CHUNK_SIZE or 400, so 400, when the form value is
falsy or below 100). -/
def route_chunk_size (chunk_size : Option Int) : Int :=
  match intTruthy chunk_size with
  | some n => if 100 ≤ n then n else DEFAULT_CHUNK_SIZE
  | none => DEFAULT_CHUNK_SIZE

/-- upload_file.py line 84: the chunk overlap forwarded by the route. -/
def route_chunk_overlap (chunk_overlap : Option Int) : Int :=
  match intTruthy chunk_overlap with
  | some n => if 0 ≤ n then n else DEFAULT_CHUNK_OVERLAP
  | none => DEFAULT_CHUNK_OVERLAP

/-- upload_file.py upload_profile (lines 61-122), modelled from the point
where the collaborator text extractor has produced the plain text of the
uploaded file (file reading and format validation are outside the core).
Steps of the source: reject text that strips to nothing (the source
tests `not text.strip()`, modelled as all characters whitespace),
require the tenant
OpenAI key, compute the forwarded chunk parameters, deactivate the old
metadata rows, delete the old vectors, store the new vectors and insert
the new metadata row.  The store call at lines 97-100 passes no
user_plan argument, so store_profile_vectors runs with its default
plan "free".  Any exception of the protected block is mapped to a 500
Embedding error response. -/
def upload_profile (split : Int → Int → String → List String)
    (embedQ : String → String → String → Except String (List Int))
    (uuidGen : Nat → String) (db : Db) (qs : QdrantState)
    (user_id file_name text : String) (chunk_size chunk_overlap : Option Int) :
    Except HttpError (Db × QdrantState × Nat) :=
  if text.data.all (fun c => c.isWhitespace) then
    .error (400, "No text found in the uploaded file.")
  else
    match strTruthy (get_openai_key_and_model_for_user db user_id).1 with
    | none => .error (400, "No OpenAI key configured. Please set your OpenAI API key before uploading a profile.")
    | some openai_key =>
        let embedding_model := (get_openai_key_and_model_for_user db user_id).2
        let cs := route_chunk_size chunk_size
        let co := route_chunk_overlap chunk_overlap
        let db1 := deactivate_user_profiles db user_id
        match delete_user_vectors qs user_id with
        | .error e => .error (500, "Embedding error: " ++ e)
        | .ok qs1 =>
            match store_profile_vectors split embedQ uuidGen qs1 user_id text openai_key
                embedding_model (some cs) (some co) "free" with
            | .error e => .error (500, "Embedding error: " ++ e)
            | .ok (qs2, vector_count) =>
                let db2 := insert_user_profile_metadata db1 user_id file_name
                    vector_count embedding_model cs co
                .ok (db2, qs2, vector_count)

/-- delete.py delete_profile (lines 28-43), inner protected block: soft
delete the active metadata row, raise 404 when no row was updated, then
delete the Qdrant vectors. -/
def delete_profile_inner (db : Db) (qs : QdrantState) (user_id : String) :
    Except HttpError (Db × QdrantState) :=
  if (soft_delete_active_profile db user_id).2 = 0 then
    .error (404, "No active profile found.")
  else
    match delete_user_vectors qs user_id with
    | .error e => .error (500, e)
    | .ok qs1 => .ok ((soft_delete_active_profile db user_id).1, qs1)

/-- delete.py delete_profile (lines 28-43): the except-Exception handler
wraps the whole protected block, so the HTTPException(404) raised inside
it is caught as well and re-raised as the 500 response; on success the
route returns the fixed status payload. -/
def delete_profile (db : Db) (qs : QdrantState) (user_id : String) :
    Except HttpError (Db × QdrantState × String × String) :=
  match delete_profile_inner db qs user_id with
  | .error _ => .error (500, "Failed to delete profile.")
  | .ok (db1, qs1) => .ok (db1, qs1, "deleted", "Profile and vectors deleted.")

/-- One message of the chat conversation payload. -/
structure ChatMsg where
  role : String
  content : String
deriving Repr, DecidableEq

/-- One completion choice of the provider response; message_content is
none when the choice message has no content attribute (the hasattr check
of agent.py line 25 fails). -/
structure Choice where
  message_content : Option String
deriving Repr, DecidableEq

/-- utils/agent.py ask_openai_agent (lines 8-31): prepend the system
message built from the prompt and the grounding context, call the
completion provider (complete, taking the api key, the model and the
messages), and return the first choice content, the fixed no-answer
fallback when there is no usable choice, or the fixed unavailability
message when the provider raised. -/
def ask_openai_agent (complete : String → Option String → List ChatMsg → Except String (List Choice))
    (api_key : String) (model : Option String) (system_prompt context : String)
    (messages : List ChatMsg) : String :=
  let chat_messages := { role := "system", content := system_prompt ++ "\n" ++ context } :: messages
  match complete api_key model chat_messages with
  | .error _ => "AI service unavailable. Please try again later."
  | .ok choices =>
      match choices with
      | [] => "No answer returned."
      | c :: _ =>
          match c.message_content with
          | some t => t
          | none => "No answer returned."

/-- The authenticated caller as provided by get_current_user. -/
structure AuthUser where
  user_id : String
  username : String
deriving Repr, DecidableEq

/-- agent.py line 69 and 128: the fixed persona prompt. -/
def systemPersona : String := "You are an expert career advisor based on the user's profile."

/-- agent.py line 58 (and 115): the retrieval call of the chat routes,
query_profile_vectors(user_id, data.messages[-1]["content"], top_k=6).
The callee signature (vectorstore.py line 90) requires the positional
openai_key argument, which this call site does not supply, so Python
raises a TypeError before the callee body runs; no credential reaches
the retrieval and the vector index is never queried by this call. -/
def chat_retrieval_call (_qs : QdrantState) (_user_id _query_text : String) :
    Except String (List Hit) :=
  .error "TypeError: query_profile_vectors() missing 1 required positional argument: openai_key"

/-- agent.py agent_chat (lines 27-80): resolve the tenant (public profile
by display name when a truthy username is sent, otherwise the caller and
its own active profile), require the tenant OpenAI key, build the
grounding context from the retrieval call (whose exception the inner
try/except turns into an empty chunk list), call ask_openai_agent and
return the answer string of the response object. -/
def agent_chat (complete : String → Option String → List ChatMsg → Except String (List Choice))
    (db : Db) (qs : QdrantState) (user : AuthUser)
    (messages : List ChatMsg) (username : Option String) :
    Except HttpError String :=
  let resolved : Except HttpError String :=
    match strTruthy username with
    | some u =>
        match get_user_profile_by_username db u with
        | none => .error (404, "User profile not found or not published.")
        | some profile => .ok profile.user_id
    | none =>
        match get_user_profile_by_username db user.username with
        | none => .error (404, "Active profile not found for user.")
        | some _ => .ok user.user_id
  match resolved with
  | .error e => .error e
  | .ok user_id =>
      let km := get_openai_key_and_model_for_user db user_id
      match strTruthy km.1 with
      | none => .error (400, "No OpenAI key found for this user.")
      | some openai_key =>
          let retrieval : Except String (List Hit) :=
            match messages.getLast? with
            | none => .error "IndexError: list index out of range"
            | some m => chat_retrieval_call qs user_id m.content
          let context_chunks : List Hit :=
            match retrieval with
            | .error _ => []
            | .ok hits => hits
          let full_context := String.intercalate "\n" (context_chunks.map (fun c => c.text))
          .ok (ask_openai_agent complete openai_key km.2 systemPersona full_context messages)

/-- Modelled from the spec: the fixed allow-list of supported embedding
models the spec requires the model argument to belong to (the OpenAI
embedding model family the configuration defaults draw from).  The
source has no such list; this definition exists to compare the source
check against the spec wording. -/
def specSupportedEmbeddingModels : List String :=
  ["text-embedding-3-small", "text-embedding-3-large", "text-embedding-ada-002"]

/-! Concrete instantiations of the external collaborators, used by the
witness and counterexample theorems: a dot-product similarity, an
embedding provider scoring a text by its length, a one-chunk splitter,
and a deterministic id generator. -/

def simW : List Int → List Int → Int :=
  fun a b => ((a.zip b).map (fun r => r.1 * r.2)).foldl (fun x y => x + y) 0

def embSvcW : String → String → String → Option (List Int) :=
  fun _ _ t => some [Int.ofNat t.length]

def embSvcFailW : String → String → String → Option (List Int) :=
  fun _ _ _ => none

def embQW : String → String → String → Except String (List Int) :=
  fun _ _ t => .ok [Int.ofNat t.length]

def splitW : Int → Int → String → List String :=
  fun _ _ t => if t = "" then [] else [t]

def uuidW : Nat → String :=
  fun n => "uuid-" ++ toString n

/-- A completion provider that echoes its credential, its model and the
first (system) message content, making visible which tenant key and
which grounding context a chat run used. -/
def completeProbeW : String → Option String → List ChatMsg → Except String (List Choice) :=
  fun k m msgs =>
    .ok [{ message_content :=
            some (k ++ "|" ++ (m.getD "nomodel") ++ "|" ++
              ((msgs.head?.map (fun x => x.content)).getD "")) }]

def completeErrW : String → Option String → List ChatMsg → Except String (List Choice) :=
  fun _ _ _ => .error "provider exploded"

def completeEmptyW : String → Option String → List ChatMsg → Except String (List Choice) :=
  fun _ _ _ => .ok []

def completeOkW : String → Option String → List ChatMsg → Except String (List Choice) :=
  fun _ _ _ => .ok [{ message_content := some "hello" }]

/-- Relational state with one tenant u1 (alice) holding an OpenAI key. -/
def dbW0 : Db :=
  { users := [{ id := "u1", username := "alice" }],
    profiles := [],
    openai_keys := [{ user_id := "u1", api_key := "k1", model := some "gpt-4" }] }

def qsW0 : QdrantState := { available := true, collection_exists := false, points := [] }

/-- State after uploading "old profile text" for u1 from dbW0 and qsW0. -/
def dbW1 : Db :=
  { users := [{ id := "u1", username := "alice" }],
    profiles := [{ user_id := "u1", original_filename := "cv1.txt", embedding_model := some "gpt-4",
                   vector_count := 1, is_active := true, is_published := false,
                   chunk_size := 400, chunk_overlap := 20 }],
    openai_keys := [{ user_id := "u1", api_key := "k1", model := some "gpt-4" }] }

def qsW1 : QdrantState :=
  { available := true, collection_exists := true,
    points := [{ id := "uuid-0", vector := [16],
                 payload := { user_id := "u1", text := "old profile text",
                              model := "text-embedding-3-small",
                              chunk_size := 400, chunk_overlap := 20, plan := "free" } }] }

/-- State after then uploading "new profile text" for u1. -/
def dbW2 : Db :=
  { users := [{ id := "u1", username := "alice" }],
    profiles := [{ user_id := "u1", original_filename := "cv1.txt", embedding_model := some "gpt-4",
                   vector_count := 1, is_active := false, is_published := false,
                   chunk_size := 400, chunk_overlap := 20 },
                 { user_id := "u1", original_filename := "cv2.txt", embedding_model := some "gpt-4",
                   vector_count := 1, is_active := true, is_published := false,
                   chunk_size := 400, chunk_overlap := 20 }],
    openai_keys := [{ user_id := "u1", api_key := "k1", model := some "gpt-4" }] }

def qsW2 : QdrantState :=
  { available := true, collection_exists := true,
    points := [{ id := "uuid-0", vector := [16],
                 payload := { user_id := "u1", text := "new profile text",
                              model := "text-embedding-3-small",
                              chunk_size := 400, chunk_overlap := 20, plan := "free" } }] }

/-- State after the route-level profile delete from dbW1 and qsW1. -/
def dbDelW : Db :=
  { users := [{ id := "u1", username := "alice" }],
    profiles := [{ user_id := "u1", original_filename := "cv1.txt", embedding_model := some "gpt-4",
                   vector_count := 1, is_active := false, is_published := false,
                   chunk_size := 400, chunk_overlap := 20 }],
    openai_keys := [{ user_id := "u1", api_key := "k1", model := some "gpt-4" }] }

def qsDelW : QdrantState := { available := true, collection_exists := true, points := [] }

/-- State after uploading "witness profile text" for u1 with the
caller-supplied form values chunk_size 300 and chunk_overlap 100. -/
def dbW3 : Db :=
  { users := [{ id := "u1", username := "alice" }],
    profiles := [{ user_id := "u1", original_filename := "cv3.txt", embedding_model := some "gpt-4",
                   vector_count := 1, is_active := true, is_published := false,
                   chunk_size := 300, chunk_overlap := 100 }],
    openai_keys := [{ user_id := "u1", api_key := "k1", model := some "gpt-4" }] }

def qsW3 : QdrantState :=
  { available := true, collection_exists := true,
    points := [{ id := "uuid-0", vector := [20],
                 payload := { user_id := "u1", text := "witness profile text",
                              model := "text-embedding-3-small",
                              chunk_size := 400, chunk_overlap := 20, plan := "free" } }] }

/-- An unreachable index state. -/
def qsDownW : QdrantState := { available := false, collection_exists := true, points := [] }

/-- Chat fixtures: alice (u1) has an active published profile, a stored
chunk in the index and a configured key; bob (u2) has no key; carol (u3)
has her own key k3. -/
def dbChatW : Db :=
  { users := [{ id := "u1", username := "alice" }, { id := "u2", username := "bob" },
              { id := "u3", username := "carol" }],
    profiles := [{ user_id := "u1", original_filename := "cv.txt", embedding_model := some "gpt-4",
                   vector_count := 1, is_active := true, is_published := true,
                   chunk_size := 400, chunk_overlap := 20 }],
    openai_keys := [{ user_id := "u1", api_key := "k1", model := some "gpt-4" },
                    { user_id := "u3", api_key := "k3", model := some "gpt-3.5" }] }

def pAliceW : PointStruct :=
  { id := "p1", vector := [1],
    payload := { user_id := "u1", text := "ALICE-CHUNK", model := "text-embedding-3-small",
                 chunk_size := 400, chunk_overlap := 20, plan := "free" } }

def pBobW : PointStruct :=
  { id := "p2", vector := [1],
    payload := { user_id := "u2", text := "BOB-CHUNK", model := "text-embedding-3-small",
                 chunk_size := 400, chunk_overlap := 20, plan := "free" } }

def qsChatW : QdrantState := { available := true, collection_exists := true, points := [pAliceW] }

def msgsW : List ChatMsg := [{ role := "user", content := "what are my skills?" }]

/-! Helper lemmas about the embedding. -/

lemma mem_insertDesc (x y : PointStruct × Int) (l : List (PointStruct × Int)) :
    x ∈ insertDesc y l ↔ x = y ∨ x ∈ l := by
  induction l with
  | nil => simp [insertDesc]
  | cons z zs ih =>
      unfold insertDesc
      by_cases h : z.2 < y.2
      · simp [h]
      · simp only [if_neg h, List.mem_cons, ih]
        tauto

lemma mem_sortDesc (x : PointStruct × Int) (l : List (PointStruct × Int)) :
    x ∈ sortDesc l ↔ x ∈ l := by
  induction l with
  | nil => simp [sortDesc]
  | cons z zs ih => simp [sortDesc, mem_insertDesc, ih]

/-- What query_profile_vectors computes, written as one expression. -/
lemma query_profile_vectors_eq (embedSvc : String → String → String → Option (List Int))
    (sim : List Int → List Int → Int) (s : QdrantState)
    (user_id query_text openai_key : String) (model : Option String) (top_k : Nat) :
    query_profile_vectors embedSvc sim s user_id query_text openai_key model top_k =
      if s.available then
        match get_text_embedding embedSvc query_text (some openai_key) model with
        | none => .ok []
        | some qv =>
            .ok (((sortDesc ((s.points.filter
                (fun p => p.payload.user_id == user_id)).map
                (fun p => (p, sim qv p.vector)))).take top_k).map
              (fun r => { text := r.1.payload.text, score := r.2 }))
      else .error "qdrant unreachable" := by
  unfold query_profile_vectors ensure_collection_exists qdrantSearch
  by_cases h : s.available
  · cases hE : get_text_embedding embedSvc query_text (some openai_key) model <;>
      simp [h, hE]
  · simp [h]

/-- What delete_user_vectors computes, written as one expression. -/
lemma delete_user_vectors_eq (s : QdrantState) (user_id : String) :
    delete_user_vectors s user_id =
      if s.available then
        .ok { s with collection_exists := true,
                     points := s.points.filter (fun p => !(p.payload.user_id == user_id)) }
      else .error "qdrant unreachable" := by
  unfold delete_user_vectors ensure_collection_exists qdrantDeleteByUser
  by_cases h : s.available <;> simp [h]

/-- Membership in a search result implies membership in the tenant filter
of the stored points. -/
lemma qdrantSearch_ok_mem (sim : List Int → List Int → Int) (s : QdrantState)
    (qv : List Int) (uid : String) (limit : Nat)
    (res : List (PointStruct × Int))
    (h : qdrantSearch sim s qv uid limit = .ok res) :
    ∀ r ∈ res, r.1 ∈ s.points ∧ r.1.payload.user_id = uid := by
  unfold qdrantSearch at h
  by_cases hA : s.available
  · simp only [hA, if_pos, Except.ok.injEq] at h
    intro r hr
    rw [← h] at hr
    have hr2 := List.take_subset _ _ hr
    rw [mem_sortDesc] at hr2
    rcases List.mem_map.mp hr2 with ⟨p, hp, hpr⟩
    rcases List.mem_filter.mp hp with ⟨hps, hpu⟩
    rw [← hpr]
    exact ⟨hps, by simpa using hpu⟩
  · simp [hA] at h

/-- The plan "free" never honours caller chunk parameters. -/
lemma selectChunkParams_free (a b : Option Int) :
    selectChunkParams "free" a b = (DEFAULT_CHUNK_SIZE, DEFAULT_CHUNK_OVERLAP) := rfl

/-- Every point produced by the embedding loop carries the tenant id, a
chunk of the split, and the chunking parameters and plan of the call. -/
lemma embedChunks_ok_mem
    (embedQ : String → String → String → Except String (List Int))
    (uuidGen : Nat → String) (key m uid : String) (csize cov : Int) (plan : String)
    (cs : List String) :
    ∀ (i : Nat) (ds : List PointStruct),
    embedChunks embedQ uuidGen key m uid csize cov plan i cs = .ok ds →
    ∀ d ∈ ds, d.payload.user_id = uid ∧ d.payload.text ∈ cs ∧
      d.payload.chunk_size = csize ∧ d.payload.chunk_overlap = cov ∧
      d.payload.plan = plan ∧ d.payload.model = m := by
  induction cs with
  | nil =>
      intro i ds h d hd
      unfold embedChunks at h
      cases h
      simp at hd
  | cons c rest ih =>
      intro i ds h d hd
      unfold embedChunks at h
      cases hv : embedQ key m c with
      | error e => rw [hv] at h; cases h
      | ok v =>
          rw [hv] at h
          cases hr : embedChunks embedQ uuidGen key m uid csize cov plan (i + 1) rest with
          | error e => rw [hr] at h; cases h
          | ok ds2 =>
              rw [hr] at h
              cases h
              rcases List.mem_cons.mp hd with h1 | h2
              · subst h1
                exact ⟨rfl, by simp, rfl, rfl, rfl, rfl⟩
              · obtain ⟨ha, hb, hc2, hd2, he, hf⟩ := ih (i + 1) ds2 hr d h2
                exact ⟨ha, by simp [hb], hc2, hd2, he, hf⟩

/-- The embedding loop produces one point per chunk. -/
lemma embedChunks_ok_length
    (embedQ : String → String → String → Except String (List Int))
    (uuidGen : Nat → String) (key m uid : String) (csize cov : Int) (plan : String)
    (cs : List String) :
    ∀ (i : Nat) (ds : List PointStruct),
    embedChunks embedQ uuidGen key m uid csize cov plan i cs = .ok ds →
    ds.length = cs.length := by
  induction cs with
  | nil =>
      intro i ds h
      unfold embedChunks at h
      cases h
      rfl
  | cons c rest ih =>
      intro i ds h
      unfold embedChunks at h
      cases hv : embedQ key m c with
      | error e => rw [hv] at h; cases h
      | ok v =>
          rw [hv] at h
          cases hr : embedChunks embedQ uuidGen key m uid csize cov plan (i + 1) rest with
          | error e => rw [hr] at h; cases h
          | ok ds2 =>
              rw [hr] at h
              cases h
              simp [ih (i + 1) ds2 hr]

/-- What store_profile_vectors computes, written as one expression. -/
lemma store_profile_vectors_eq (split : Int → Int → String → List String)
    (embedQ : String → String → String → Except String (List Int))
    (uuidGen : Nat → String) (s : QdrantState)
    (uid text key : String) (model : Option String)
    (cs co : Option Int) (plan : String) :
    store_profile_vectors split embedQ uuidGen s uid text key model cs co plan =
      if s.available then
        match embedChunks embedQ uuidGen key (get_valid_embedding_model model) uid
            (selectChunkParams plan cs co).1 (selectChunkParams plan cs co).2 plan 0
            (split (selectChunkParams plan cs co).1 (selectChunkParams plan cs co).2 text) with
        | .error e => .error e
        | .ok docs =>
            .ok ({ available := s.available, collection_exists := true,
                   points := (s.points.filter
                     (fun p => !(docs.any (fun q => q.id == p.id)))) ++ docs },
                 docs.length)
      else .error "qdrant unreachable" := by
  unfold store_profile_vectors ensure_collection_exists qdrantUpsert
  by_cases hA : s.available
  · cases hE : embedChunks embedQ uuidGen key (get_valid_embedding_model model) uid
        (selectChunkParams plan cs co).1 (selectChunkParams plan cs co).2 plan 0
        (split (selectChunkParams plan cs co).1 (selectChunkParams plan cs co).2 text) <;>
      simp [hA, hE]
  · simp [hA]

/-- Structure of a successful upload: the tenant key was configured, the
index was reachable, the embedding loop succeeded on the chunks of the
default-parameter split, and the resulting index state holds the old
points minus the tenant points (and minus id collisions) plus the new
generation. -/
lemma upload_profile_ok (split : Int → Int → String → List String)
    (embedQ : String → String → String → Except String (List Int))
    (uuidGen : Nat → String) (db : Db) (qs : QdrantState)
    (uid fn text : String) (cs co : Option Int)
    (db2 : Db) (qs2 : QdrantState) (n : Nat)
    (h : upload_profile split embedQ uuidGen db qs uid fn text cs co = .ok (db2, qs2, n)) :
    ∃ key docs,
      strTruthy (get_openai_key_and_model_for_user db uid).1 = some key ∧
      qs.available = true ∧ qs2.available = true ∧ qs2.collection_exists = true ∧
      embedChunks embedQ uuidGen key
        (get_valid_embedding_model (get_openai_key_and_model_for_user db uid).2) uid
        DEFAULT_CHUNK_SIZE DEFAULT_CHUNK_OVERLAP "free" 0
        (split DEFAULT_CHUNK_SIZE DEFAULT_CHUNK_OVERLAP text) = .ok docs ∧
      qs2.points = ((qs.points.filter (fun p => !(p.payload.user_id == uid))).filter
          (fun p => !(docs.any (fun q => q.id == p.id)))) ++ docs ∧
      n = docs.length := by
  unfold upload_profile at h
  by_cases hT : text.data.all (fun c => c.isWhitespace) = true
  · rw [if_pos hT] at h; cases h
  · rw [if_neg hT] at h
    cases hK : strTruthy (get_openai_key_and_model_for_user db uid).1 with
    | none => rw [hK] at h; cases h
    | some key =>
        rw [hK] at h
        try dsimp only at h
        rw [delete_user_vectors_eq] at h
        by_cases hA : qs.available
        · rw [if_pos hA] at h
          try dsimp only at h
          rw [store_profile_vectors_eq] at h
          simp only [selectChunkParams_free] at h
          try dsimp only at h
          rw [if_pos hA] at h
          cases hE : embedChunks embedQ uuidGen key
              (get_valid_embedding_model (get_openai_key_and_model_for_user db uid).2) uid
              DEFAULT_CHUNK_SIZE DEFAULT_CHUNK_OVERLAP "free" 0
              (split DEFAULT_CHUNK_SIZE DEFAULT_CHUNK_OVERLAP text) with
          | error e => rw [hE] at h; cases h
          | ok docs =>
              rw [hE] at h
              try dsimp only at h
              cases h
              exact ⟨key, docs, rfl, hA, hA, rfl, hE, rfl, rfl⟩
        · rw [if_neg hA] at h; cases h

/-- Structure of a successful route-level profile delete: the tenant had
an active metadata row, the index was reachable, the surviving metadata
rows have no active row for the tenant, and the index state keeps
exactly the points of other tenants. -/
lemma delete_profile_ok (db : Db) (qs : QdrantState) (uid : String)
    (db2 : Db) (qs2 : QdrantState) (st dt : String)
    (h : delete_profile db qs uid = .ok (db2, qs2, st, dt)) :
    qs.available = true ∧
    db2 = deactivate_user_profiles db uid ∧
    qs2 = { available := qs.available, collection_exists := true,
            points := qs.points.filter (fun p => !(p.payload.user_id == uid)) } := by
  unfold delete_profile delete_profile_inner at h
  by_cases hR : (soft_delete_active_profile db uid).2 = 0
  · rw [if_pos hR] at h
    cases h
  · rw [if_neg hR] at h
    rw [delete_user_vectors_eq] at h
    by_cases hA : qs.available
    · rw [if_pos hA] at h
      cases h
      exact ⟨hA, rfl, rfl⟩
    · rw [if_neg hA] at h
      cases h

/-- Every hit of a successful retrieval is the text of a stored point
tagged with the requested tenant. -/
lemma query_profile_vectors_ok_mem
    (embedSvc : String → String → String → Option (List Int))
    (sim : List Int → List Int → Int) (s : QdrantState)
    (uid q key : String) (model : Option String) (k : Nat) (hits : List Hit)
    (h : query_profile_vectors embedSvc sim s uid q key model k = .ok hits) :
    ∀ x ∈ hits, ∃ p, p ∈ s.points ∧ p.payload.user_id = uid ∧ x.text = p.payload.text := by
  rw [query_profile_vectors_eq] at h
  by_cases hA : s.available
  · simp only [hA, if_true] at h
    cases hE : get_text_embedding embedSvc q (some key) model with
    | none =>
        rw [hE] at h
        cases h
        intro x hx
        simp at hx
    | some qv =>
        rw [hE] at h
        cases h
        intro x hx
        rcases List.mem_map.mp hx with ⟨r, hr, hrx⟩
        have hr2 := List.take_subset _ _ hr
        rw [mem_sortDesc] at hr2
        rcases List.mem_map.mp hr2 with ⟨p, hp, hpr⟩
        rcases List.mem_filter.mp hp with ⟨hps, hpu⟩
        refine ⟨p, hps, by simpa using hpu, ?_⟩
        rw [← hrx, ← hpr]
  · simp [hA] at h

/-- Retrieval only reads the tenant slice of the stored points: states
that agree on that slice and on availability give equal answers. -/
lemma query_profile_vectors_congr
    (embedSvc : String → String → String → Option (List Int))
    (sim : List Int → List Int → Int) (s1 s2 : QdrantState)
    (uid q key : String) (model : Option String) (k : Nat)
    (hav : s1.available = s2.available)
    (hfil : s1.points.filter (fun p => p.payload.user_id == uid)
          = s2.points.filter (fun p => p.payload.user_id == uid)) :
    query_profile_vectors embedSvc sim s1 uid q key model k
      = query_profile_vectors embedSvc sim s2 uid q key model k := by
  rw [query_profile_vectors_eq, query_profile_vectors_eq, hav, hfil]

/-- C1: Tenant isolation.  Retrieval for tenant A returns only texts of
points whose payload tenant field is A (both search entry points), and
the result of retrieval for A is unchanged by inserting points of
another tenant B or by the tenant-filtered delete of B. -/
theorem tenant_isolation
    (embedSvc : String → String → String → Option (List Int))
    (embedQ : String → String → String → Except String (List Int))
    (sim : List Int → List Int → Int) (s : QdrantState)
    (A B q key : String) (model : Option String) (k : Nat)
    (hAB : A ≠ B) :
    (∀ hits, query_profile_vectors embedSvc sim s A q key model k = .ok hits →
       ∀ x ∈ hits, ∃ p, p ∈ s.points ∧ p.payload.user_id = A ∧ x.text = p.payload.text)
    ∧ (∀ hits, qdrant_query embedQ sim s A q key model = .ok hits →
       ∀ x ∈ hits, ∃ p, p ∈ s.points ∧ p.payload.user_id = A ∧ x.text = p.payload.text)
    ∧ (∀ extra, (∀ p ∈ extra, p.payload.user_id = B) →
          query_profile_vectors embedSvc sim { s with points := s.points ++ extra } A q key model k
        = query_profile_vectors embedSvc sim s A q key model k)
    ∧ (∀ s2, delete_user_vectors s B = .ok s2 →
          (∀ p ∈ s2.points, p.payload.user_id ≠ B)
        ∧ query_profile_vectors embedSvc sim s2 A q key model k
          = query_profile_vectors embedSvc sim s A q key model k) := by
  refine ⟨?_, ?_, ?_, ?_⟩
  · intro hits h
    exact query_profile_vectors_ok_mem embedSvc sim s A q key model k hits h
  · intro hits h
    unfold qdrant_query ensure_collection_exists at h
    by_cases hA : s.available
    · simp only [hA, if_true] at h
      cases hQ : embedQ key (get_valid_embedding_model model) q with
      | error e => rw [hQ] at h; cases h
      | ok qv =>
          rw [hQ] at h
          try dsimp only at h
          cases hS : qdrantSearch sim
              { available := true, collection_exists := true, points := s.points } qv A 15 with
          | error e => rw [hS] at h; cases h
          | ok results =>
              rw [hS] at h
              try dsimp only at h
              cases h
              intro x hx
              rcases List.mem_map.mp hx with ⟨r, hr, hrx⟩
              obtain ⟨hps, hpu⟩ := qdrantSearch_ok_mem sim _ qv A 15 results hS r hr
              exact ⟨r.1, hps, hpu, by rw [← hrx]⟩
    · simp [hA] at h
  · intro extra hB
    refine query_profile_vectors_congr embedSvc sim _ s A q key model k rfl ?_
    show (s.points ++ extra).filter (fun p => p.payload.user_id == A)
        = s.points.filter (fun p => p.payload.user_id == A)
    rw [List.filter_append]
    have hnil : extra.filter (fun p => p.payload.user_id == A) = [] := by
      rw [List.filter_eq_nil_iff]
      intro p hp
      simp [hB p hp, Ne.symm hAB]
    rw [hnil, List.append_nil]
  · intro s2 hdel
    rw [delete_user_vectors_eq] at hdel
    by_cases hA : s.available
    · simp only [hA, if_true] at hdel
      cases hdel
      constructor
      · intro p hp
        rcases List.mem_filter.mp hp with ⟨_, hpB⟩
        simpa using hpB
      · refine query_profile_vectors_congr embedSvc sim _ s A q key model k hA.symm ?_
        show ((s.points.filter (fun p => !(p.payload.user_id == B))).filter
              (fun p => p.payload.user_id == A))
            = s.points.filter (fun p => p.payload.user_id == A)
        rw [List.filter_filter]
        refine List.filter_congr ?_
        intro x _
        by_cases hxA : x.payload.user_id = A
        · simp [hxA, hAB]
        · simp [hxA]
    · simp [hA] at hdel

/-- C1 witness: with a concrete store holding one point of tenant u1,
adding a point of tenant u2 leaves the retrieval answer of u1 unchanged,
and that answer is the u1 chunk. -/
theorem tenant_isolation_witness :
    ("u1" : String) ≠ "u2"
    ∧ query_profile_vectors embSvcW simW
        { qsChatW with points := qsChatW.points ++ [pBobW] } "u1" "q" "k1" none 6
      = query_profile_vectors embSvcW simW qsChatW "u1" "q" "k1" none 6
    ∧ query_profile_vectors embSvcW simW qsChatW "u1" "q" "k1" none 6
      = .ok [{ text := "ALICE-CHUNK", score := 1 }] :=
  ⟨by decide,
   (tenant_isolation embSvcW embQW simW qsChatW "u1" "u2" "q" "k1" none 6
       (by decide)).2.2.1 [pBobW] (by decide),
   by rfl⟩

/-- C2: Replace invariant.  After a successful upload of text2 following
a successful upload of text1 for the same tenant, every point of that
tenant in the index is a chunk of text2, every retrieval hit for the
tenant is a chunk of text2, and no chunk of text1 outside text2 is
retrievable. -/
theorem replace_invariant
    (split : Int → Int → String → List String)
    (embedQ : String → String → String → Except String (List Int))
    (uuidGen : Nat → String)
    (embedSvc : String → String → String → Option (List Int))
    (sim : List Int → List Int → Int)
    (db0 db1 db2 : Db) (qs0 qs1 qs2 : QdrantState)
    (tenant f1 f2 text1 text2 q key : String) (model : Option String) (k : Nat)
    (cs1 co1 cs2 co2 : Option Int) (n1 n2 : Nat)
    (h1 : upload_profile split embedQ uuidGen db0 qs0 tenant f1 text1 cs1 co1 = .ok (db1, qs1, n1))
    (h2 : upload_profile split embedQ uuidGen db1 qs1 tenant f2 text2 cs2 co2 = .ok (db2, qs2, n2)) :
    (∀ p ∈ qs2.points, p.payload.user_id = tenant →
        p.payload.text ∈ split DEFAULT_CHUNK_SIZE DEFAULT_CHUNK_OVERLAP text2)
    ∧ (∀ hits, query_profile_vectors embedSvc sim qs2 tenant q key model k = .ok hits →
        ∀ x ∈ hits, x.text ∈ split DEFAULT_CHUNK_SIZE DEFAULT_CHUNK_OVERLAP text2)
    ∧ (∀ c, c ∈ split DEFAULT_CHUNK_SIZE DEFAULT_CHUNK_OVERLAP text1 →
        c ∉ split DEFAULT_CHUNK_SIZE DEFAULT_CHUNK_OVERLAP text2 →
        ∀ hits, query_profile_vectors embedSvc sim qs2 tenant q key model k = .ok hits →
          ∀ x ∈ hits, x.text ≠ c) := by
  obtain ⟨key2, docs, hK, hA, hA2, hC2, hE, hPts, hN⟩ :=
    upload_profile_ok split embedQ uuidGen db1 qs1 tenant f2 text2 cs2 co2 db2 qs2 n2 h2
  have hmem : ∀ p ∈ qs2.points, p.payload.user_id = tenant →
      p.payload.text ∈ split DEFAULT_CHUNK_SIZE DEFAULT_CHUNK_OVERLAP text2 := by
    intro p hp hpu
    rw [hPts] at hp
    rcases List.mem_append.mp hp with hOld | hNew
    · have hno := (List.mem_filter.mp (List.mem_filter.mp hOld).1).2
      rw [hpu] at hno
      simp at hno
    · exact (embedChunks_ok_mem embedQ uuidGen key2
        (get_valid_embedding_model (get_openai_key_and_model_for_user db1 tenant).2) tenant
        DEFAULT_CHUNK_SIZE DEFAULT_CHUNK_OVERLAP "free"
        (split DEFAULT_CHUNK_SIZE DEFAULT_CHUNK_OVERLAP text2) 0 docs hE p hNew).2.1
  refine ⟨hmem, ?_, ?_⟩
  · intro hits hq x hx
    obtain ⟨p, hps, hpu, hxt⟩ :=
      query_profile_vectors_ok_mem embedSvc sim qs2 tenant q key model k hits hq x hx
    rw [hxt]
    exact hmem p hps hpu
  · intro c hc1 hc2 hits hq x hx hxc
    obtain ⟨p, hps, hpu, hxt⟩ :=
      query_profile_vectors_ok_mem embedSvc sim qs2 tenant q key model k hits hq x hx
    apply hc2
    rw [← hxc, hxt]
    exact hmem p hps hpu

/-- C2 witness: a concrete double upload for u1 after which the only
retrievable text is the single chunk of the second document. -/
theorem replace_invariant_witness :
    ("new profile text" : String) ∈ splitW DEFAULT_CHUNK_SIZE DEFAULT_CHUNK_OVERLAP "new profile text" :=
  (replace_invariant splitW embQW uuidW embSvcW simW dbW0 dbW1 dbW2 qsW0 qsW1 qsW2
      "u1" "cv1.txt" "cv2.txt" "old profile text" "new profile text" "q" "k1" none 6
      none none none none 1 1 (by rfl) (by rfl)).2.1
    [{ text := "new profile text", score := 16 }] (by rfl)
    { text := "new profile text", score := 16 } (by decide)

/-- C3 counterexample: the route-level profile delete is not idempotent.
Starting from a state with one active profile and one stored vector for
u1, the first delete succeeds, but the second delete on the now-empty
tenant returns an error response (the 404 raised for the missing active
row is converted to a 500 by the catch-all handler), instead of
succeeding as the claim states. -/
theorem delete_idempotence_cex :
    delete_profile dbW1 qsW1 "u1" = .ok (dbDelW, qsDelW, "deleted", "Profile and vectors deleted.")
    ∧ delete_profile dbDelW qsDelW "u1" = .error (500, "Failed to delete profile.") :=
  ⟨by rfl, by rfl⟩

/-- C3 amended: after a successful route-level deleteProfile, retrieval
for the tenant always returns the empty list, and the vector-store
delete is idempotent (a second delete_user_vectors succeeds and changes
nothing); the HTTP route itself, however, answers a second delete with
the 500 error response because no active metadata row remains. -/
theorem delete_completeness (db : Db) (qs : QdrantState) (tenant : String)
    (db2 : Db) (qs2 : QdrantState) (st dt : String)
    (h : delete_profile db qs tenant = .ok (db2, qs2, st, dt)) :
    (∀ (embedSvc : String → String → String → Option (List Int))
       (sim : List Int → List Int → Int) (q key : String) (model : Option String) (k : Nat),
       query_profile_vectors embedSvc sim qs2 tenant q key model k = .ok [])
    ∧ delete_user_vectors qs2 tenant = .ok qs2
    ∧ delete_profile db2 qs2 tenant = .error (500, "Failed to delete profile.") := by
  obtain ⟨hA, hdb2, hqs2⟩ := delete_profile_ok db qs tenant db2 qs2 st dt h
  have hA2 : qs2.available = true := by rw [hqs2]; exact hA
  have hC2 : qs2.collection_exists = true := by rw [hqs2]
  have hpts : qs2.points.filter (fun p => p.payload.user_id == tenant) = [] := by
    rw [hqs2]
    dsimp only
    rw [List.filter_filter, List.filter_eq_nil_iff]
    intro p _
    simp
  have hpts2 : qs2.points.filter (fun p => !(p.payload.user_id == tenant)) = qs2.points := by
    rw [List.filter_eq_self]
    intro p hp
    rw [hqs2] at hp
    dsimp only at hp
    exact (List.mem_filter.mp hp).2
  refine ⟨?_, ?_, ?_⟩
  · intro embedSvc sim q key model k
    rw [query_profile_vectors_eq]
    simp only [hA2, if_true]
    cases hE : get_text_embedding embedSvc q (some key) model with
    | none => rfl
    | some qv => simp [hpts, sortDesc]
  · rw [delete_user_vectors_eq]
    simp only [hA2, if_true, hpts2]
    cases qs2 with
    | mk a c p =>
        simp at hA2 hC2
        subst hA2
        subst hC2
        rfl
  · have hcnt : (soft_delete_active_profile db2 tenant).2 = 0 := by
      rw [hdb2]
      unfold soft_delete_active_profile deactivate_user_profiles
      dsimp only
      rw [List.length_eq_zero, List.filter_eq_nil_iff]
      intro p hp
      rcases List.mem_map.mp hp with ⟨p0, hp0, rfl⟩
      by_cases hm : (p0.user_id == tenant && p0.is_active) = true
      · rw [if_pos hm]
        simp
      · rw [if_neg hm]
        simpa using hm
    unfold delete_profile delete_profile_inner
    rw [if_pos hcnt]

/-- C3 witness: the amended statements evaluated on the concrete state
left behind by the successful delete of the counterexample. -/
theorem delete_completeness_witness :
    query_profile_vectors embSvcW simW qsDelW "u1" "q" "k1" none 6 = .ok []
    ∧ delete_user_vectors qsDelW "u1" = .ok qsDelW
    ∧ delete_profile dbDelW qsDelW "u1" = .error (500, "Failed to delete profile.") :=
  ⟨(delete_completeness dbW1 qsW1 "u1" dbDelW qsDelW "deleted" "Profile and vectors deleted."
      (by rfl)).1 embSvcW simW "q" "k1" none 6,
   (delete_completeness dbW1 qsW1 "u1" dbDelW qsDelW "deleted" "Profile and vectors deleted."
      (by rfl)).2.1,
   (delete_completeness dbW1 qsW1 "u1" dbDelW qsDelW "deleted" "Profile and vectors deleted."
      (by rfl)).2.2⟩

/-- C4: evaluation of the chat flow at a state where tenant u1 has a
stored chunk and a configured credential.  The endpoint does return an
answer object, but the probed completion shows the grounding context is
empty (nothing follows the newline after the persona) although the
chunk is stored: the retrieval call site omits the required openai_key
argument, so the last message is never embedded and the chunk is never
retrieved. -/
theorem chat_grounding_bug :
    (pAliceW ∈ qsChatW.points ∧ pAliceW.payload.user_id = "u1"
      ∧ pAliceW.payload.text = "ALICE-CHUNK")
    ∧ agent_chat completeProbeW dbChatW qsChatW { user_id := "u1", username := "alice" } msgsW none
      = .ok ("k1|gpt-4|" ++ systemPersona ++ "\n")
    ∧ chat_retrieval_call qsChatW "u1" "what are my skills?"
      = .error "TypeError: query_profile_vectors() missing 1 required positional argument: openai_key" :=
  ⟨⟨by decide, rfl, rfl⟩, by rfl, rfl⟩

/-- C9: the public-profile chat resolves the display name to the profile
owner u1 and runs the completion with the owner credential k1 and model
gpt-4, whatever the authenticated caller: bob (no key of his own) and
carol (key k3) both receive answers produced with k1.  The retrieval
step, however, is invoked without any credential (the call omits the
required openai_key argument and always raises), so the owner
credential reaches only the completion, with an empty context. -/
theorem public_chat_owner_credential :
    agent_chat completeProbeW dbChatW qsChatW { user_id := "u2", username := "bob" } msgsW (some "alice")
      = .ok ("k1|gpt-4|" ++ systemPersona ++ "\n")
    ∧ agent_chat completeProbeW dbChatW qsChatW { user_id := "u3", username := "carol" } msgsW (some "alice")
      = .ok ("k1|gpt-4|" ++ systemPersona ++ "\n")
    ∧ get_openai_key_and_model_for_user dbChatW "u2" = (none, none)
    ∧ get_openai_key_and_model_for_user dbChatW "u3" = (some "k3", some "gpt-3.5")
    ∧ (get_user_profile_by_username dbChatW "alice").map (fun p => p.user_id) = some "u1" :=
  ⟨by rfl, by rfl, by rfl, by rfl, by rfl⟩

/-- C5 counterexample: with the vector index unreachable, the retrieval
operation itself propagates the failure to its caller instead of
returning the empty sequence. -/
theorem retrieval_degradation_cex :
    query_profile_vectors embSvcW simW qsDownW "u1" "q" "k1" none 6 = .error "qdrant unreachable"
    ∧ (Except.error "qdrant unreachable" : Except String (List Hit)) ≠ .ok [] :=
  ⟨by rfl, by simp⟩

/-- C5 amended: on embedding failure (index reachable) retrieval returns
the empty list; when the index is unreachable retrieval raises the
failure, which the enclosing chat route (not the retrieval operation)
turns into an empty chunk list. -/
theorem retrieval_degradation
    (embedSvc : String → String → String → Option (List Int))
    (sim : List Int → List Int → Int) (s : QdrantState)
    (uid q key : String) (model : Option String) (k : Nat) :
    (s.available = true → get_text_embedding embedSvc q (some key) model = none →
        query_profile_vectors embedSvc sim s uid q key model k = .ok [])
    ∧ (s.available = false →
        query_profile_vectors embedSvc sim s uid q key model k = .error "qdrant unreachable") := by
  constructor
  · intro hA hE
    rw [query_profile_vectors_eq]
    simp [hA, hE]
  · intro hA
    rw [query_profile_vectors_eq]
    simp [hA]

/-- C5 witness: a failing embedding provider yields the empty hit list on
a reachable index, and an unreachable index yields the error. -/
theorem retrieval_degradation_witness :
    query_profile_vectors embSvcFailW simW qsChatW "u1" "q" "k1" none 6 = .ok []
    ∧ query_profile_vectors embSvcW simW qsDownW "u2" "q" "k1" none 6 = .error "qdrant unreachable" :=
  ⟨(retrieval_degradation embSvcFailW simW qsChatW "u1" "q" "k1" none 6).1 rfl rfl,
   (retrieval_degradation embSvcW simW qsDownW "u2" "q" "k1" none 6).2 rfl⟩

/-- The chunk size actually used is always at least 100. -/
lemma selectChunkParams_size_ge (plan : String) (cs co : Option Int) :
    100 ≤ (selectChunkParams plan cs co).1 := by
  unfold selectChunkParams
  by_cases hp : isCustomPlan plan = true
  · rw [if_pos hp]
    dsimp only
    cases hcs : intTruthy cs with
    | none => decide
    | some n =>
        dsimp only
        split
        · assumption
        · decide
  · rw [if_neg hp]
    decide

/-- The chunk overlap actually used is never negative. -/
lemma selectChunkParams_overlap_nonneg (plan : String) (cs co : Option Int) :
    0 ≤ (selectChunkParams plan cs co).2 := by
  unfold selectChunkParams
  by_cases hp : isCustomPlan plan = true
  · rw [if_pos hp]
    dsimp only
    cases hco : intTruthy co with
    | none => decide
    | some n =>
        dsimp only
        split
        · assumption
        · decide
  · rw [if_neg hp]
    decide

/-- Without a truthy nonnegative caller overlap the default is used. -/
lemma selectChunkParams_overlap_default (plan : String) (cs co : Option Int)
    (h : ∀ n, intTruthy co = some n → n < 0) :
    (selectChunkParams plan cs co).2 = DEFAULT_CHUNK_OVERLAP := by
  unfold selectChunkParams
  by_cases hp : isCustomPlan plan = true
  · rw [if_pos hp]
    dsimp only
    cases hco : intTruthy co with
    | none => rfl
    | some n =>
        dsimp only
        rw [if_neg (by have := h n hco; omega)]
  · rw [if_neg hp]

/-- C6 counterexample: a custom-plan ingestion with chunk_size 100 and
chunk_overlap 350 uses exactly those values, violating overlap < size;
nothing rejects or clamps the pair before it reaches the splitter. -/
theorem chunk_bounds_cex :
    selectChunkParams "pro" (some 100) (some 350) = (100, 350)
    ∧ ¬((selectChunkParams "pro" (some 100) (some 350)).2
        < (selectChunkParams "pro" (some 100) (some 350)).1) :=
  ⟨by decide, by decide⟩

/-- C6 amended: the parameters actually used always satisfy size at
least 100 and overlap at least 0; non-custom plans always use the
defaults (400, 20); and overlap < size additionally holds whenever the
caller supplies no positive overlap.  A custom-plan caller may however
pass any positive overlap, including one at least as large as the size,
unchecked. -/
theorem chunk_bounds (plan : String) (cs co : Option Int) :
    100 ≤ (selectChunkParams plan cs co).1
    ∧ 0 ≤ (selectChunkParams plan cs co).2
    ∧ (isCustomPlan plan = false →
        selectChunkParams plan cs co = (DEFAULT_CHUNK_SIZE, DEFAULT_CHUNK_OVERLAP))
    ∧ ((∀ n, intTruthy co = some n → n < 0) →
        (selectChunkParams plan cs co).2 < (selectChunkParams plan cs co).1) := by
  refine ⟨selectChunkParams_size_ge plan cs co, selectChunkParams_overlap_nonneg plan cs co, ?_, ?_⟩
  · intro hnc
    unfold selectChunkParams
    rw [if_neg (by rw [hnc]; exact Bool.false_ne_true)]
  · intro hneg
    have h1 := selectChunkParams_size_ge plan cs co
    have h2 := selectChunkParams_overlap_default plan cs co hneg
    have h3 : DEFAULT_CHUNK_OVERLAP = 20 := rfl
    rw [h2, h3]
    omega

/-- C6 witness: a free-plan caller cannot change the defaults, and a
custom-plan caller who sends no overlap still gets overlap < size. -/
theorem chunk_bounds_witness :
    selectChunkParams "free" (some 999) (some 998) = (DEFAULT_CHUNK_SIZE, DEFAULT_CHUNK_OVERLAP)
    ∧ (selectChunkParams "pro" (some 150) none).2 < (selectChunkParams "pro" (some 150) none).1 :=
  ⟨(chunk_bounds "free" (some 999) (some 998)).2.2.1 rfl,
   (chunk_bounds "pro" (some 150) none).2.2.2 (fun n h => Option.noConfusion h)⟩

/-- A truthy string is not empty. -/
lemma strTruthy_some_ne (m : Option String) (s : String) (h : strTruthy m = some s) :
    ¬ s = "" := by
  cases m with
  | none =>
      simp only [strTruthy] at h
      exact Option.noConfusion h
  | some a =>
      simp only [strTruthy] at h
      by_cases ha : a = ""
      · rw [if_pos ha] at h
        cases h
      · rw [if_neg ha] at h
        cases h
        exact ha

/-- C7 counterexample: the source accepts any name with the prefix
text-embedding, so a name outside every fixed allow-list of supported
embedding models is used as-is. -/
theorem embedding_model_allowlist_cex :
    get_valid_embedding_model (some "text-embedding-not-a-real-model")
      = "text-embedding-not-a-real-model"
    ∧ "text-embedding-not-a-real-model" ∉ specSupportedEmbeddingModels :=
  ⟨by decide, by decide⟩

/-- C7 amended: the model actually used always begins with the prefix
text-embedding; a missing or falsy argument resolves to the configured
default and a name without the prefix falls back to the literal
text-embedding-3-small; a name with the prefix is used unchanged.  The
validation is a prefix check, not membership in an enumerated
allow-list. -/
theorem embedding_model_resolution (model : Option String) :
    strStartsWith (get_valid_embedding_model model) "text-embedding" = true
    ∧ (strTruthy model = none → get_valid_embedding_model model = "text-embedding-3-small")
    ∧ (∀ s, strTruthy model = some s → strStartsWith s "text-embedding" = false →
        get_valid_embedding_model model = "text-embedding-3-small")
    ∧ (∀ s, strTruthy model = some s → strStartsWith s "text-embedding" = true →
        get_valid_embedding_model model = s) := by
  unfold get_valid_embedding_model strOr
  cases hm : strTruthy model with
  | none =>
      refine ⟨by decide, fun _ => by decide, ?_, ?_⟩
      · intro s hs
        cases hs
      · intro s hs
        cases hs
  | some t =>
      have ht := strTruthy_some_ne model t hm
      dsimp only
      refine ⟨?_, ?_, ?_, ?_⟩
      · by_cases hs : strStartsWith t "text-embedding" = true
        · simp [ht, hs]
        · simp [ht, hs]
          decide
      · intro habs
        cases habs
      · intro s hs hpre
        cases hs
        simp [ht, hpre]
      · intro s hs hpre
        cases hs
        simp [ht, hpre]

/-- C7 witness: a prefix-free name and a missing name both resolve to the
default, and a prefixed name passes through. -/
theorem embedding_model_resolution_witness :
    get_valid_embedding_model (some "gpt-4") = "text-embedding-3-small"
    ∧ get_valid_embedding_model none = "text-embedding-3-small"
    ∧ get_valid_embedding_model (some "text-embedding-3-large") = "text-embedding-3-large" :=
  ⟨(embedding_model_resolution (some "gpt-4")).2.2.1 "gpt-4" rfl (by decide),
   (embedding_model_resolution none).2.1 rfl,
   (embedding_model_resolution (some "text-embedding-3-large")).2.2.2
     "text-embedding-3-large" rfl (by decide)⟩

/-- C8: the single-response chat helper returns the fixed unavailability
message when the completion provider raises, the fixed no-answer
fallback when the provider returns no choices, and otherwise the text
of the first choice. -/
theorem responder_fallback
    (complete : String → Option String → List ChatMsg → Except String (List Choice))
    (api_key : String) (model : Option String) (system_prompt context : String)
    (messages : List ChatMsg) :
    ((∃ e, complete api_key model
        ({ role := "system", content := system_prompt ++ "\n" ++ context } :: messages)
        = .error e) →
      ask_openai_agent complete api_key model system_prompt context messages
        = "AI service unavailable. Please try again later.")
    ∧ (complete api_key model
        ({ role := "system", content := system_prompt ++ "\n" ++ context } :: messages)
        = .ok [] →
      ask_openai_agent complete api_key model system_prompt context messages
        = "No answer returned.")
    ∧ (∀ t rest, complete api_key model
        ({ role := "system", content := system_prompt ++ "\n" ++ context } :: messages)
        = .ok ({ message_content := some t } :: rest) →
      ask_openai_agent complete api_key model system_prompt context messages = t) := by
  unfold ask_openai_agent
  dsimp only
  refine ⟨?_, ?_, ?_⟩
  · rintro ⟨e, he⟩
    rw [he]
  · intro h
    rw [h]
  · intro t rest h
    rw [h]

/-- C8 witness: the three provider behaviours evaluated concretely. -/
theorem responder_fallback_witness :
    ask_openai_agent completeErrW "k" none "sp" "ctx" []
      = "AI service unavailable. Please try again later."
    ∧ ask_openai_agent completeEmptyW "k" none "sp" "ctx" [] = "No answer returned."
    ∧ ask_openai_agent completeOkW "k" none "sp" "ctx" [] = "hello" :=
  ⟨(responder_fallback completeErrW "k" none "sp" "ctx" []).1 ⟨"provider exploded", rfl⟩,
   (responder_fallback completeEmptyW "k" none "sp" "ctx" []).2.1 rfl,
   (responder_fallback completeOkW "k" none "sp" "ctx" []).2.2 "hello" [] rfl⟩

/-- C10: whatever chunk_size and chunk_overlap the caller sends to the
upload route, a successful upload stores every point of the tenant with
the process defaults 400 and 20 and the plan "free", and the point
count is the number of chunks of the default-parameter split: the route
forwards the values but never passes a plan, and the non-custom-plan
branch of the store discards them. -/
theorem upload_default_chunking (split : Int → Int → String → List String)
    (embedQ : String → String → String → Except String (List Int))
    (uuidGen : Nat → String) (db : Db) (qs : QdrantState)
    (tenant fn text : String) (cs co : Option Int)
    (db2 : Db) (qs2 : QdrantState) (n : Nat)
    (h : upload_profile split embedQ uuidGen db qs tenant fn text cs co = .ok (db2, qs2, n)) :
    (∀ p ∈ qs2.points, p.payload.user_id = tenant →
        p.payload.chunk_size = DEFAULT_CHUNK_SIZE
        ∧ p.payload.chunk_overlap = DEFAULT_CHUNK_OVERLAP
        ∧ p.payload.plan = "free")
    ∧ n = (split DEFAULT_CHUNK_SIZE DEFAULT_CHUNK_OVERLAP text).length := by
  obtain ⟨key, docs, hK, hA, hA2, hC, hE, hPts, hN⟩ :=
    upload_profile_ok split embedQ uuidGen db qs tenant fn text cs co db2 qs2 n h
  constructor
  · intro p hp hpu
    rw [hPts] at hp
    rcases List.mem_append.mp hp with hOld | hNew
    · have hno := (List.mem_filter.mp (List.mem_filter.mp hOld).1).2
      rw [hpu] at hno
      simp at hno
    · obtain ⟨_, _, h3, h4, h5, _⟩ := embedChunks_ok_mem embedQ uuidGen key
        (get_valid_embedding_model (get_openai_key_and_model_for_user db tenant).2) tenant
        DEFAULT_CHUNK_SIZE DEFAULT_CHUNK_OVERLAP "free"
        (split DEFAULT_CHUNK_SIZE DEFAULT_CHUNK_OVERLAP text) 0 docs hE p hNew
      exact ⟨h3, h4, h5⟩
  · rw [hN]
    exact embedChunks_ok_length embedQ uuidGen key
      (get_valid_embedding_model (get_openai_key_and_model_for_user db tenant).2) tenant
      DEFAULT_CHUNK_SIZE DEFAULT_CHUNK_OVERLAP "free"
      (split DEFAULT_CHUNK_SIZE DEFAULT_CHUNK_OVERLAP text) 0 docs hE

/-- C10 witness: a concrete upload sending chunk_size 300 and
chunk_overlap 100 still stores its point with 400 and 20 (while the
metadata row records the forwarded 300 and 100). -/
theorem upload_default_chunking_witness :
    ((qsW3.points.head?.map (fun p => (p.payload.chunk_size, p.payload.chunk_overlap)))
        = some (300, 100) → False)
    ∧ (∀ p ∈ qsW3.points, p.payload.user_id = "u1" →
        p.payload.chunk_size = DEFAULT_CHUNK_SIZE
        ∧ p.payload.chunk_overlap = DEFAULT_CHUNK_OVERLAP
        ∧ p.payload.plan = "free")
    ∧ (1 : Nat) = (splitW DEFAULT_CHUNK_SIZE DEFAULT_CHUNK_OVERLAP "witness profile text").length :=
  ⟨by decide,
   (upload_default_chunking splitW embQW uuidW dbW0 qsW0 "u1" "cv3.txt" "witness profile text"
      (some 300) (some 100) dbW3 qsW3 1 (by rfl)).1,
   (upload_default_chunking splitW embQW uuidW dbW0 qsW0 "u1" "cv3.txt" "witness profile text"
      (some 300) (some 100) dbW3 qsW3 1 (by rfl)).2⟩

end Agere
